import Mathlib

/-!
Verification of the streaming chat client in
`src/react-tailwind-chatbot-client` (component `MyLayout` and the admin
`ChatConsole`).  The JavaScript component state and its operations
(`fetchChats`, `loadChat`, `createChat`, `sendMessage`, the composer
guard, `sendReply`, `normalizeRole`) are embedded as pure Lean functions
over an explicit client-state record.  Network behaviour is supplied by
an environment record: each endpoint either rejects (the fetch promise
rejects), answers with a non-success status, or answers successfully
with a body.  Because `sendMessage` contains no try/catch, a rejected
promise escapes the function; runs therefore finish either normally
(`RunResult.ok`) or with an uncaught exception (`RunResult.exn`),
carrying the component state at that point.
-/

/-- A conversation summary row, `{id, title}` as returned by `GET /chats`
and `POST /chat/new`. -/
structure Chat where
  id : Nat
  title : String
deriving DecidableEq

/-- A thread message, `{role, content: [{text}]}`; `content` is the list
of text segments. -/
structure Msg where
  role : String
  content : List String
deriving DecidableEq

/-- The `MyLayout` component state relevant to the chat flow: the
`chats`, `currentId`, `messages`, `streaming`, `error` and
`loadingChats` pieces of React state. -/
structure ClientState where
  chats : List Chat
  currentId : Option Nat
  messages : List Msg
  streaming : Bool
  error : String
  loadingChats : Bool
deriving DecidableEq

/-- Outcome of the `POST /chat/stream` fetch in `sendMessage`:
the promise rejects, or a response arrives with a success flag
(`res.ok`), a readable-body flag (`res.body` non-null), the list of
decoded chunks the reader delivers, and whether the read after those
chunks rejects instead of resolving `done`. -/
inductive StreamOutcome where
  | reject
  | resp (ok : Bool) (hasBody : Bool) (chunks : List String) (readFails : Bool)

/-- The network environment of one run: response of `POST /chat/new` (`none`
covers every failure, all caught inside `createChat`), outcome of
`POST /chat/stream`, response of `GET /chats` (`none` covers every
failure, all caught inside `fetchChats`), and the stored thread served
by `GET /chat/{id}` for each id (`none` covers every failure, all
caught inside `loadChat`). -/
structure Env where
  createResp : Option Chat
  stream : StreamOutcome
  chatsResp : Option (List Chat)
  threadOf : Nat → Option (List Msg)

/-- Result of an async operation without a surrounding try/catch: normal
return, or an uncaught exception escaping with the state as mutated so
far. -/
inductive RunResult where
  | ok (s : ClientState)
  | exn (s : ClientState)
deriving DecidableEq

/-- How many times a `sendMessage` run hit each endpoint:
`POST /chat/new`, `POST /chat/stream`, and the `fetchChats` refresh. -/
structure CallLog where
  createCalls : Nat
  streamCalls : Nat
  refreshCalls : Nat
deriving DecidableEq

/-- The user bubble appended optimistically by `sendMessage`:
`{ role: "user", content: [{ text }] }`. -/
def userMsg (text : String) : Msg :=
  { role := "user", content := [text] }

/-- An assistant bubble `{ role: "assistant", content: [{ text }] }`. -/
def assistantMsg (text : String) : Msg :=
  { role := "assistant", content := [text] }

/-- `copy[copy.length - 1] = m` on a copied array: replace the last
element (on an empty array the assignment targets index `-1` and the
rendered items are unchanged). -/
def setLast (l : List Msg) (m : Msg) : List Msg :=
  if l.isEmpty then l else l.dropLast ++ [m]

/-- The `while (true)` reader loop of `sendMessage`: for each delivered
chunk, `assistantText += chunk` and the last message is replaced
wholesale by an assistant bubble holding the full accumulator value.
Returns the final accumulator and message list. -/
def consumeChunks : List String → String → List Msg → String × List Msg
  | [], acc, msgs => (acc, msgs)
  | c :: rest, acc, msgs =>
      consumeChunks rest (acc ++ c) (setLast msgs (assistantMsg (acc ++ c)))

/-- `loadChat(id)`: `setCurrentId(id); setMessages([])`, then fetch
`GET /chat/{id}`; on success replace `messages` with the response, on
any failure (caught) set the error string. -/
def loadChat (env : Env) (id : Nat) (s : ClientState) : ClientState :=
  let s1 := { s with currentId := some id, messages := [] }
  match env.threadOf id with
  | none => { s1 with error := "Failed to load conversation" }
  | some msgs => { s1 with messages := msgs }

/-- `fetchChats()`: set `loadingChats`, fetch `GET /chats`; on success
replace `chats` wholesale and, if no conversation is selected and the
list is non-empty, auto-select `data[0]` via `loadChat`; on any failure
(caught) set the error string; `finally` clears `loadingChats`. -/
def fetchChats (env : Env) (s : ClientState) : ClientState :=
  let s1 := { s with loadingChats := true }
  match env.chatsResp with
  | none => { s1 with error := "Failed to load chats", loadingChats := false }
  | some data =>
      let s2 := { s1 with chats := data }
      let s3 :=
        match s2.currentId, data with
        | none, c :: _ => loadChat env c.id s2
        | _, _ => s2
      { s3 with loadingChats := false }

/-- `createChat(initialTitle)`: `POST /chat/new`; on success prepend
`{id: data.id, title: data.title}` to `chats`, select it, clear
`messages`, and return its id; on any failure (caught) set the error
string and return `null`. -/
def createChat (env : Env) (s : ClientState) : Option Nat × ClientState :=
  match env.createResp with
  | none => (none, { s with error := "Failed to create chat" })
  | some data =>
      (some data.id,
       { s with chats := { id := data.id, title := data.title } :: s.chats,
                currentId := some data.id,
                messages := [] })

/-- Continuation of `sendMessage` after the conversation id is resolved:
the optimistic user append, the streaming fetch, the reader loop, and the
final refresh. -/
def sendMessageWithId (env : Env) (text : String) (createCalls : Nat)
    (s : ClientState) : RunResult × CallLog :=
  let s1 := { s with messages := s.messages ++ [userMsg text] }
  match env.stream with
  | StreamOutcome.reject =>
      (RunResult.exn s1, ⟨createCalls, 1, 0⟩)
  | StreamOutcome.resp ok hasBody chunks readFails =>
      if !ok || !hasBody then
        (RunResult.ok { s1 with error := "Error streaming response",
                                streaming := false },
         ⟨createCalls, 1, 0⟩)
      else
        let s2 := { s1 with messages := s1.messages ++ [assistantMsg ""] }
        let s3 := { s2 with messages := (consumeChunks chunks "" s2.messages).2 }
        if readFails then
          (RunResult.exn s3, ⟨createCalls, 1, 0⟩)
        else
          let s4 := fetchChats env s3
          (RunResult.ok { s4 with streaming := false },
           ⟨createCalls, 1, 1⟩)

/-- `sendMessage(text)`: clear the error, set `streaming`, create a
conversation first when none is selected (aborting, with `streaming`
reset, when creation fails), then append the user bubble, open the
streaming request and consume it (`sendMessageWithId`).  There is no
try/catch around the streaming fetch or the reads, so their rejections
escape. -/
def sendMessage (env : Env) (text : String) (s : ClientState) :
    RunResult × CallLog :=
  let s1 := { s with error := "", streaming := true }
  match s1.currentId with
  | some _ => sendMessageWithId env text 0 s1
  | none =>
      match createChat env s1 with
      | (none, s2) =>
          (RunResult.ok { s2 with streaming := false }, ⟨1, 0, 0⟩)
      | (some _, s2) =>
          sendMessageWithId env text 1 s2

/-- JavaScript `String.prototype.trim`: strip leading and trailing
whitespace (embedded structurally over the character list so that it
evaluates). -/
def jsTrim (s : String) : String :=
  String.mk (((s.data.dropWhile Char.isWhitespace).reverse.dropWhile
    Char.isWhitespace).reverse)

/-- JavaScript `String.prototype.toLowerCase`, embedded as a character
map. -/
def jsToLower (s : String) : String :=
  String.mk (s.data.map Char.toLower)

/-- The composer `send` handler in `ChatInput`: trim the text and return
without calling `onSend` when the trimmed value is empty, otherwise run
`sendMessage` on the trimmed text. -/
def composerSend (env : Env) (text : String) (s : ClientState) :
    RunResult × CallLog :=
  let t := jsTrim text
  if t = "" then (RunResult.ok s, ⟨0, 0, 0⟩)
  else sendMessage env t s

/-- An admin-console message row (`{id, role, text, created_at}`,
reduced to the fields the logic touches). -/
structure AdminMsg where
  role : String
  text : String
deriving DecidableEq

/-- The `ChatConsole` state relevant to `sendReply`: the reply draft,
the selected chat id (the empty string when none is selected), the
message list and the two busy flags. -/
structure AdminState where
  replyText : String
  selectedChat : String
  messages : List AdminMsg
  sending : Bool
  messagesLoading : Bool
deriving DecidableEq

/-- Network environment for one `sendReply` run: outcome of the reply
POST (`none` = rejected or non-success, which throws), and the response
of the follow-up `loadMessages` (`none` = rejected or non-success,
which throws). -/
structure AdminEnv where
  replyResp : Option Unit
  adminMsgs : Option (List AdminMsg)

/-- Result of `sendReply`: normal return or an uncaught exception (its
try block has only a `finally`, so throws escape after `sending` is
cleared), with the state at that point. -/
inductive AdminRun where
  | ok (a : AdminState)
  | exn (a : AdminState)
deriving DecidableEq

/-- `sendReply()`: return immediately when the trimmed draft is empty or
no chat is selected; otherwise POST the reply (a throw escapes through
the `finally`), clear the draft, reload the messages, and clear
`sending`.  The boolean reports whether the reply POST was issued. -/
def sendReply (env : AdminEnv) (a : AdminState) : AdminRun × Bool :=
  let t := jsTrim a.replyText
  if t = "" || a.selectedChat = "" then (AdminRun.ok a, false)
  else
    let a1 := { a with sending := true }
    match env.replyResp with
    | none => (AdminRun.exn { a1 with sending := false }, true)
    | some _ =>
        let a2 := { a1 with replyText := "" }
        let a3 := { a2 with messagesLoading := true }
        match env.adminMsgs with
        | none =>
            (AdminRun.exn { a3 with messagesLoading := false,
                                    sending := false }, true)
        | some ms =>
            (AdminRun.ok { a3 with messages := ms,
                                   messagesLoading := false,
                                   sending := false }, true)

/-- `normalizeRole(role)`: `(role or "") toString trim toLowerCase`
classified against the two role alias lists; unknown roles fall through
to `"assistant"`.  A null/undefined/absent role is `none`. -/
def normalizeRole (role : Option String) : String :=
  let s := jsToLower (jsTrim (role.getD ""))
  if s ∈ ["user", "human", "customer", "client", "you"] then "user"
  else if s ∈ ["assistant", "ai", "bot", "model"] then "assistant"
  else "assistant"

/-- Concatenation of chunks in delivery order (spec-side vocabulary for
stating the accumulator property). -/
def concatChunks : List String → String
  | [] => ""
  | c :: rest => c ++ concatChunks rest

/-- Whether a `StreamOutcome` is a fully successful stream: a success
status, a readable body, and no read rejection. -/
def streamSucceeds : StreamOutcome → Bool
  | StreamOutcome.resp true true _ false => true
  | _ => false

lemma setLast_concat (init : List Msg) (m m' : Msg) :
    setLast (init ++ [m]) m' = init ++ [m'] := by
  simp [setLast]

lemma consumeChunks_fst (cs : List String) (acc : String) (msgs : List Msg) :
    (consumeChunks cs acc msgs).1 = acc ++ concatChunks cs := by
  induction cs generalizing acc msgs with
  | nil => simp [consumeChunks, concatChunks]
  | cons c rest ih =>
      simp [consumeChunks, concatChunks, ih, String.append_assoc]

lemma consumeChunks_snd (cs : List String) (acc : String) (init : List Msg)
    (m : Msg) :
    (consumeChunks cs acc (init ++ [m])).2 =
      init ++ [if cs.isEmpty then m
               else assistantMsg (acc ++ concatChunks cs)] := by
  induction cs generalizing acc m with
  | nil => simp [consumeChunks]
  | cons c rest ih =>
      rw [consumeChunks, setLast_concat, ih]
      cases rest with
      | nil => simp [concatChunks]
      | cons d ds => simp [concatChunks, String.append_assoc]

lemma fetchChats_of_selected (env : Env) (s : ClientState) (i : Nat)
    (h : s.currentId = some i) :
    (fetchChats env s).currentId = some i ∧
    (fetchChats env s).messages = s.messages ∧
    (fetchChats env s).streaming = s.streaming := by
  cases hc : env.chatsResp with
  | none => simp [fetchChats, hc, h]
  | some data =>
      cases data with
      | nil => simp [fetchChats, hc, h]
      | cons c rest => simp [fetchChats, hc, h]

/-- State carried by a run result, whether it returned or escaped. -/
def RunResult.endState : RunResult → ClientState
  | RunResult.ok s => s
  | RunResult.exn s => s

/-- Whether a run returned normally (no uncaught exception). -/
def RunResult.isOk : RunResult → Bool
  | RunResult.ok _ => true
  | RunResult.exn _ => false

lemma sendMessageWithId_success (env : Env) (text : String) (cc : Nat)
    (s : ClientState) (cs : List String)
    (hstream : env.stream = StreamOutcome.resp true true cs false) :
    sendMessageWithId env text cc s =
      (RunResult.ok
        { fetchChats env
            { s with messages :=
                s.messages ++ [userMsg text, assistantMsg (concatChunks cs)] }
          with streaming := false },
       ⟨cc, 1, 1⟩) := by
  have hmsgs : (consumeChunks cs ""
      ((s.messages ++ [userMsg text]) ++ [assistantMsg ""])).2
      = s.messages ++ [userMsg text, assistantMsg (concatChunks cs)] := by
    rw [consumeChunks_snd]
    cases cs with
    | nil => simp [concatChunks]
    | cons c rest => simp
  simp only [List.append_assoc, List.cons_append, List.nil_append] at hmsgs
  unfold sendMessageWithId
  rw [hstream]
  simp [hmsgs]

lemma sendMessage_eq_withId (env : Env) (text : String) (s : ClientState)
    (i : Nat) (hsel : s.currentId = some i) :
    sendMessage env text s =
      sendMessageWithId env text 0 { s with error := "", streaming := true } := by
  unfold sendMessage
  simp [hsel]

/-- Claim C6: the auto-selection in `fetchChats` fires only when no
conversation is selected.  With an existing selection, a refresh never
changes the selection (nor the thread).  With no selection and a
non-empty returned list, the first returned conversation is selected
and its stored thread is loaded. -/
theorem fetchChats_autoselect_only_when_unselected (env : Env)
    (s : ClientState) :
    (∀ i : Nat, s.currentId = some i →
      (fetchChats env s).currentId = some i ∧
      (fetchChats env s).messages = s.messages) ∧
    (∀ (c : Chat) (rest : List Chat),
      s.currentId = none → env.chatsResp = some (c :: rest) →
      (fetchChats env s).currentId = some c.id ∧
      (∀ msgs : List Msg, env.threadOf c.id = some msgs →
        (fetchChats env s).messages = msgs)) := by
  constructor
  · intro i h
    exact ⟨(fetchChats_of_selected env s i h).1,
           (fetchChats_of_selected env s i h).2.1⟩
  · intro c rest hnone hresp
    constructor
    · cases ht : env.threadOf c.id <;>
        simp [fetchChats, hresp, hnone, loadChat, ht]
    · intro msgs hth
      simp [fetchChats, hresp, hnone, loadChat, hth]

/-- Claim C6 witness: with conversation 5 selected, a refresh returning
two other conversations leaves the selection at 5; with nothing
selected, the same refresh selects conversation 7 and loads its stored
thread. -/
theorem fetchChats_autoselect_witness :
    ((fetchChats (Env.mk none StreamOutcome.reject
        (some [Chat.mk 7 "a", Chat.mk 8 "b"]) (fun _ => some [userMsg "x"]))
        (ClientState.mk [] (some 5) [] false "" false)).currentId = some 5 ∧
     (fetchChats (Env.mk none StreamOutcome.reject
        (some [Chat.mk 7 "a", Chat.mk 8 "b"]) (fun _ => some [userMsg "x"]))
        (ClientState.mk [] (some 5) [] false "" false)).messages = []) ∧
    ((fetchChats (Env.mk none StreamOutcome.reject
        (some [Chat.mk 7 "a", Chat.mk 8 "b"]) (fun _ => some [userMsg "x"]))
        (ClientState.mk [] none [] false "" false)).currentId = some 7 ∧
     (fetchChats (Env.mk none StreamOutcome.reject
        (some [Chat.mk 7 "a", Chat.mk 8 "b"]) (fun _ => some [userMsg "x"]))
        (ClientState.mk [] none [] false "" false)).messages = [userMsg "x"]) := by
  constructor
  · exact (fetchChats_autoselect_only_when_unselected _ _).1 5 rfl
  · refine ⟨((fetchChats_autoselect_only_when_unselected _ _).2
        (Chat.mk 7 "a") [Chat.mk 8 "b"] rfl rfl).1, ?_⟩
    exact ((fetchChats_autoselect_only_when_unselected _ _).2
        (Chat.mk 7 "a") [Chat.mk 8 "b"] rfl rfl).2 [userMsg "x"] rfl

/-- Claim C7: `loadChat` replaces the thread wholesale; loading A, then
B, then A again leaves exactly the same thread contents and selection as
one fresh load of A from any state. -/
theorem loadChat_wholesale_idempotent (env : Env) (s t : ClientState)
    (a b : Nat) :
    (loadChat env a (loadChat env b (loadChat env a s))).messages =
      (loadChat env a t).messages ∧
    (loadChat env a (loadChat env b (loadChat env a s))).currentId =
      (loadChat env a t).currentId := by
  cases ha : env.threadOf a <;> cases hb : env.threadOf b <;>
    simp [loadChat, ha, hb]

/-- Claim C10: `normalizeRole` is total and two-valued; it returns
`"user"` exactly when the trimmed lower-cased input is one of the five
user aliases, and `"assistant"` for every other input (null and unknown
roles included). -/
theorem normalizeRole_total_two_valued (r : Option String) :
    (normalizeRole r = "user" ∨ normalizeRole r = "assistant") ∧
    (normalizeRole r = "user" ↔
      jsToLower (jsTrim (r.getD "")) ∈
        ["user", "human", "customer", "client", "you"]) := by
  unfold normalizeRole
  by_cases h : jsToLower (jsTrim (r.getD "")) ∈
      ["user", "human", "customer", "client", "you"]
  · simp [h]
  · by_cases h2 : jsToLower (jsTrim (r.getD "")) ∈
        ["assistant", "ai", "bot", "model"]
    · simp [h, h2]
    · simp [h, h2]

lemma consumeChunks_after_placeholder (cs : List String) (pre : List Msg) :
    (consumeChunks cs "" (pre ++ [assistantMsg ""])).2 =
      pre ++ [assistantMsg (concatChunks cs)] := by
  rw [consumeChunks_snd]
  cases cs with
  | nil => simp [concatChunks]
  | cons c rest => simp

lemma sendMessageWithId_statusFail (env : Env) (text : String) (cc : Nat)
    (s : ClientState) (ok hasBody : Bool) (cs : List String) (rf : Bool)
    (hstream : env.stream = StreamOutcome.resp ok hasBody cs rf)
    (hfail : ok = false ∨ hasBody = false) :
    sendMessageWithId env text cc s =
      (RunResult.ok { s with messages := s.messages ++ [userMsg text],
                             error := "Error streaming response",
                             streaming := false },
       CallLog.mk cc 1 0) := by
  unfold sendMessageWithId
  rw [hstream]
  rcases hfail with h | h <;> subst h <;> simp

lemma sendMessageWithId_reject (env : Env) (text : String) (cc : Nat)
    (s : ClientState) (hstream : env.stream = StreamOutcome.reject) :
    sendMessageWithId env text cc s =
      (RunResult.exn { s with messages := s.messages ++ [userMsg text] },
       CallLog.mk cc 1 0) := by
  unfold sendMessageWithId
  rw [hstream]

lemma sendMessageWithId_readFail (env : Env) (text : String) (cc : Nat)
    (s : ClientState) (cs : List String)
    (hstream : env.stream = StreamOutcome.resp true true cs true) :
    sendMessageWithId env text cc s =
      (RunResult.exn
        { s with messages :=
            s.messages ++ [userMsg text, assistantMsg (concatChunks cs)] },
       CallLog.mk cc 1 0) := by
  have hmsgs := consumeChunks_after_placeholder cs (s.messages ++ [userMsg text])
  simp only [List.append_assoc, List.cons_append, List.nil_append] at hmsgs
  unfold sendMessageWithId
  rw [hstream]
  simp [hmsgs]

/-- Concrete fixture: a state with conversation 1 selected and an empty
thread. -/
def stSelW : ClientState := ClientState.mk [] (some 1) [] false "" false

/-- Concrete fixture: a state with no conversation selected. -/
def stEmptyW : ClientState := ClientState.mk [] none [] false "" false

/-- Concrete fixture: the streaming request answers with a non-success
status (for example HTTP 500) and conversation creation fails. -/
def envFailW : Env :=
  Env.mk none (StreamOutcome.resp false true [] false) (some [])
    (fun _ => none)

/-- Concrete fixture: the streaming fetch promise rejects (network
failure). -/
def envRejW : Env :=
  Env.mk none StreamOutcome.reject (some []) (fun _ => none)

/-- Concrete fixture: the stream succeeds with chunks "Hel" and "lo". -/
def envOkW : Env :=
  Env.mk none (StreamOutcome.resp true true ["Hel", "lo"] false)
    (some [Chat.mk 1 "t"]) (fun _ => some [])

/-- Concrete fixture: conversation creation succeeds with id 3. -/
def envCreateW : Env :=
  Env.mk (some (Chat.mk 3 "New")) StreamOutcome.reject none (fun _ => none)

/-- Claim C1 counterexample: with conversation 1 selected, an empty
thread and a non-success streaming response, the thread afterwards holds
only the optimistic user message and not the claimed user-plus-empty-
assistant pair; the placeholder is appended only after the status check
passes. -/
theorem sendMessage_streamFail_counterexample :
    (sendMessage envFailW "Hello" stSelW).1.endState.messages =
      [userMsg "Hello"] ∧
    (sendMessage envFailW "Hello" stSelW).1.endState.messages ≠
      [userMsg "Hello", assistantMsg ""] ∧
    (sendMessage envFailW "Hello" stSelW).1.endState.error =
      "Error streaming response" ∧
    (sendMessage envFailW "Hello" stSelW).1.endState.streaming = false := by
  decide

/-- Claim C1 (amended): if the streaming request returns a non-success
status or an unreadable body, the thread afterwards contains the
optimistic user message and no assistant placeholder, the user-visible
error string is set, the composer is re-enabled, and no refresh is
issued. -/
theorem sendMessage_streamFail_state (env : Env) (s : ClientState) (i : Nat)
    (text : String) (ok hasBody : Bool) (cs : List String) (rf : Bool)
    (hsel : s.currentId = some i)
    (hstream : env.stream = StreamOutcome.resp ok hasBody cs rf)
    (hfail : ok = false ∨ hasBody = false) :
    sendMessage env text s =
      (RunResult.ok { s with messages := s.messages ++ [userMsg text],
                             error := "Error streaming response",
                             streaming := false },
       CallLog.mk 0 1 0) := by
  rw [sendMessage_eq_withId env text s i hsel,
      sendMessageWithId_statusFail env text 0 _ ok hasBody cs rf hstream hfail]

/-- Claim C1 witness: the amended statement evaluated on the HTTP 500
fixture. -/
theorem sendMessage_streamFail_witness :
    sendMessage envFailW "Hi" stSelW =
      (RunResult.ok { stSelW with messages := stSelW.messages ++ [userMsg "Hi"],
                                  error := "Error streaming response",
                                  streaming := false },
       CallLog.mk 0 1 0) :=
  sendMessage_streamFail_state envFailW stSelW 1 "Hi" false true [] false
    rfl rfl (Or.inl rfl)

/-- Claim C2 counterexample: when the streaming fetch promise rejects
(network failure), the exception escapes `sendMessage` uncaught: the run
does not return normally, no error string is set, and `streaming`
remains true, so the composer stays disabled — contradicting the claim
that every failure is caught at the boundary and ends with
`streaming = false`. -/
theorem sendMessage_uncaught_reject_counterexample :
    (sendMessage envRejW "Hello" stSelW).1 =
      RunResult.exn (ClientState.mk [] (some 1) [userMsg "Hello"] true "" false) ∧
    (sendMessage envRejW "Hello" stSelW).1.isOk = false ∧
    (sendMessage envRejW "Hello" stSelW).1.endState.streaming = true ∧
    (sendMessage envRejW "Hello" stSelW).1.endState.error = "" := by
  decide

/-- Claim C2 (amended): a non-success status is caught — the error
string is surfaced, the exchange halts with `streaming = false`, and the
thread keeps exactly the optimistic user message; but a rejected
streaming fetch, and a rejected mid-stream chunk read, escape
`sendMessage` uncaught, with no error string set and `streaming` left
true — the thread is still not corrupted (it keeps the user message and
any partial assistant content). -/
theorem sendMessage_failure_modes (env : Env) (s : ClientState) (i : Nat)
    (text : String) :
    (env.stream = StreamOutcome.reject → s.currentId = some i →
      sendMessage env text s =
        (RunResult.exn { s with messages := s.messages ++ [userMsg text],
                                error := "", streaming := true },
         CallLog.mk 0 1 0)) ∧
    (∀ (ok hasBody : Bool) (cs : List String) (rf : Bool),
      env.stream = StreamOutcome.resp ok hasBody cs rf →
      s.currentId = some i → (ok = false ∨ hasBody = false) →
      (sendMessage env text s).1.isOk = true ∧
      (sendMessage env text s).1.endState.error = "Error streaming response" ∧
      (sendMessage env text s).1.endState.streaming = false ∧
      (sendMessage env text s).1.endState.messages =
        s.messages ++ [userMsg text]) ∧
    (∀ cs : List String,
      env.stream = StreamOutcome.resp true true cs true →
      s.currentId = some i →
      sendMessage env text s =
        (RunResult.exn
          { s with error := "", streaming := true,
                   messages := s.messages ++
                     [userMsg text, assistantMsg (concatChunks cs)] },
         CallLog.mk 0 1 0)) := by
  refine ⟨?_, ?_, ?_⟩
  · intro hstream hsel
    rw [sendMessage_eq_withId env text s i hsel,
        sendMessageWithId_reject env text 0 _ hstream]
  · intro ok hasBody cs rf hstream hsel hfail
    rw [sendMessage_eq_withId env text s i hsel,
        sendMessageWithId_statusFail env text 0 _ ok hasBody cs rf hstream hfail]
    refine ⟨rfl, rfl, rfl, ?_⟩
    simp [RunResult.endState]
  · intro cs hstream hsel
    rw [sendMessage_eq_withId env text s i hsel,
        sendMessageWithId_readFail env text 0 _ cs hstream]

/-- Claim C2 witness: the rejected-fetch case of the amended statement
evaluated on the rejecting fixture. -/
theorem sendMessage_failure_modes_witness :
    sendMessage envRejW "Hi" stSelW =
      (RunResult.exn { stSelW with messages := stSelW.messages ++ [userMsg "Hi"],
                                   error := "", streaming := true },
       CallLog.mk 0 1 0) :=
  (sendMessage_failure_modes envRejW stSelW 1 "Hi").1 rfl rfl

/-- Claim C4: when no conversation is selected and conversation creation
fails, the whole exchange aborts with no partial state: no user message
is appended, the chat list and selection are untouched, the error string
is surfaced, `streaming` is reset to false, and neither the streaming
request nor the refresh is issued. -/
theorem sendMessage_createFail_no_partial_state (env : Env) (s : ClientState)
    (text : String) (hnone : s.currentId = none)
    (hfail : env.createResp = none) :
    sendMessage env text s =
      (RunResult.ok { s with error := "Failed to create chat",
                             streaming := false },
       CallLog.mk 1 0 0) := by
  unfold sendMessage
  simp [hnone, createChat, hfail]

/-- Claim C4 witness: the statement evaluated on the failing-creation
fixture from the unselected state. -/
theorem sendMessage_createFail_witness :
    sendMessage envFailW "Hello" stEmptyW =
      (RunResult.ok { stEmptyW with error := "Failed to create chat",
                                    streaming := false },
       CallLog.mk 1 0 0) :=
  sendMessage_createFail_no_partial_state envFailW stEmptyW "Hello" rfl rfl

/-- Claim C3: for every sequence of delivered chunks, after a successful
stream the content of the assistant message is the concatenation of all
decoded chunks in delivery order, whatever the chunk boundaries; and
each chunk step replaces the last message wholesale with the
full current value of the accumulator — the result is independent of
the previous content of the placeholder, never a delta append. -/
theorem sendMessage_stream_concat (env : Env) (s : ClientState) (i : Nat)
    (text : String) (cs : List String)
    (hsel : s.currentId = some i)
    (hstream : env.stream = StreamOutcome.resp true true cs false) :
    ((sendMessage env text s).1.isOk = true ∧
     (sendMessage env text s).1.endState.messages =
       s.messages ++ [userMsg text, assistantMsg (concatChunks cs)]) ∧
    (∀ (init : List Msg) (m1 m2 : Msg) (acc c : String) (rest : List String),
      (consumeChunks (c :: rest) acc (init ++ [m1])).2 =
        (consumeChunks (c :: rest) acc (init ++ [m2])).2 ∧
      (consumeChunks [c] acc (init ++ [m1])).2 =
        init ++ [assistantMsg (acc ++ c)]) := by
  constructor
  · rw [sendMessage_eq_withId env text s i hsel,
        sendMessageWithId_success env text 0 _ cs hstream]
    refine ⟨rfl, ?_⟩
    simp only [RunResult.endState]
    rw [(fetchChats_of_selected env _ i (by simp [hsel])).2.1]
  · intro init m1 m2 acc c rest
    constructor
    · simp [consumeChunks, setLast_concat]
    · simp [consumeChunks, setLast_concat]

/-- Claim C3 witness: streaming the chunks "Hel" and "lo" into the
selected conversation yields the user message followed by an assistant
message whose content is their concatenation. -/
theorem sendMessage_stream_concat_witness :
    (sendMessage envOkW "Hi" stSelW).1.isOk = true ∧
    (sendMessage envOkW "Hi" stSelW).1.endState.messages =
      stSelW.messages ++ [userMsg "Hi", assistantMsg (concatChunks ["Hel", "lo"])] :=
  (sendMessage_stream_concat envOkW stSelW 1 "Hi" ["Hel", "lo"] rfl rfl).1

lemma sendMessageWithId_log (env : Env) (text : String) (cc : Nat)
    (s : ClientState) :
    (sendMessageWithId env text cc s).2 =
      CallLog.mk cc 1 (if streamSucceeds env.stream then 1 else 0) := by
  rcases hs : env.stream with _ | ⟨ok, hasBody, cs, rf⟩
  · simp [sendMessageWithId, streamSucceeds, hs]
  · cases ok <;> cases hasBody <;> cases rf <;>
      simp [sendMessageWithId, streamSucceeds, hs]

/-- Claim C5 counterexample: with a conversation selected and a
non-success streaming response, `sendMessage` makes the streaming call
but performs zero conversation-list refresh calls, contradicting the
claimed unconditional single refresh after completion or failure. -/
theorem sendMessage_refresh_skipped_counterexample :
    (sendMessage envFailW "Hello" stSelW).2.streamCalls = 1 ∧
    (sendMessage envFailW "Hello" stSelW).2.refreshCalls = 0 ∧
    (sendMessage envFailW "Hello" stSelW).2.refreshCalls ≠ 1 := by
  decide

/-- Claim C5 (amended): a run of `sendMessage` performs one
conversation-create call exactly when no conversation is selected; the
streaming call happens exactly once unless creation was needed and
failed (then zero); and the conversation-list refresh happens exactly
once when the stream opens successfully and every chunk read completes,
and zero times on every failure path. -/
theorem sendMessage_call_counts (env : Env) (text : String)
    (s : ClientState) :
    (sendMessage env text s).2 =
      CallLog.mk (if s.currentId.isSome then 0 else 1)
        (if s.currentId.isSome || env.createResp.isSome then 1 else 0)
        (if (s.currentId.isSome || env.createResp.isSome) &&
            streamSucceeds env.stream then 1 else 0) := by
  cases hc : s.currentId with
  | some i =>
      rw [sendMessage_eq_withId env text s i hc, sendMessageWithId_log]
      simp [hc]
  | none =>
      cases hr : env.createResp with
      | none => simp [sendMessage, hc, createChat, hr]
      | some d =>
          unfold sendMessage
          simp only [hc, createChat, hr]
          rw [sendMessageWithId_log]
          simp [hr]

/-- Claim C8: on a successful creation `createChat` prepends the new
record to the front of the list, makes it the current selection and
resets the thread to the empty message list; on failure it returns null
and leaves list, selection and thread unchanged. -/
theorem createChat_prepend_select_reset (env : Env) (s : ClientState) :
    (∀ d : Chat, env.createResp = some d →
      createChat env s =
        (some d.id,
         { s with chats := { id := d.id, title := d.title } :: s.chats,
                  currentId := some d.id, messages := [] })) ∧
    (env.createResp = none →
      (createChat env s).1 = none ∧
      (createChat env s).2.chats = s.chats ∧
      (createChat env s).2.currentId = s.currentId ∧
      (createChat env s).2.messages = s.messages) := by
  constructor
  · intro d hd
    simp [createChat, hd]
  · intro hn
    simp [createChat, hn]

/-- Claim C8 witness: the statement evaluated on a successful creation
of conversation 3 and on a failing creation. -/
theorem createChat_witness :
    createChat envCreateW stEmptyW =
      (some 3,
       { stEmptyW with chats := { id := 3, title := "New" } :: stEmptyW.chats,
                       currentId := some 3, messages := [] }) ∧
    ((createChat envFailW stEmptyW).1 = none ∧
     (createChat envFailW stEmptyW).2.chats = stEmptyW.chats ∧
     (createChat envFailW stEmptyW).2.currentId = stEmptyW.currentId ∧
     (createChat envFailW stEmptyW).2.messages = stEmptyW.messages) :=
  ⟨(createChat_prepend_select_reset envCreateW stEmptyW).1 (Chat.mk 3 "New") rfl,
   (createChat_prepend_select_reset envFailW stEmptyW).2 rfl⟩

/-- Claim C9: an input whose trimmed value is empty makes the composer
send a complete no-op — `sendMessage` is never invoked, no endpoint is
hit and the state is unchanged; likewise `sendReply` in the admin console
does nothing when the trimmed draft is empty or no chat is selected. -/
theorem empty_input_noop (env : Env) (aenv : AdminEnv) (text : String)
    (s : ClientState) (a : AdminState) :
    (jsTrim text = "" →
      composerSend env text s = (RunResult.ok s, CallLog.mk 0 0 0)) ∧
    ((jsTrim a.replyText = "" ∨ a.selectedChat = "") →
      sendReply aenv a = (AdminRun.ok a, false)) := by
  constructor
  · intro h
    simp [composerSend, h]
  · intro h
    unfold sendReply
    rcases h with h | h <;> simp [h]

/-- Claim C9 witness: the statement evaluated on whitespace-only composer
input and on an admin state with an empty draft and no selected chat. -/
theorem empty_input_noop_witness :
    composerSend envRejW "  " stSelW = (RunResult.ok stSelW, CallLog.mk 0 0 0) ∧
    sendReply (AdminEnv.mk none none) (AdminState.mk "" "" [] false false) =
      (AdminRun.ok (AdminState.mk "" "" [] false false), false) :=
  ⟨(empty_input_noop envRejW (AdminEnv.mk none none) "  " stSelW
      (AdminState.mk "" "" [] false false)).1 (by decide),
   (empty_input_noop envRejW (AdminEnv.mk none none) "  " stSelW
      (AdminState.mk "" "" [] false false)).2 (Or.inl (by decide))⟩
